import Mathlib

/-!
Shallow embedding of the credit-ledger / lead-pricing core of the
clonesite-backend repository (a services-marketplace backend).

Sources embedded:
* src/unnamed/part_001        — User schema methods (spendCredits, addCredits,
                                shouldAutoTopUp, findUsersNeedingAutoTopUp)
* src/models/CreditTransaction.js — transaction record, processTransaction
* src/models/request.js       — Request schema, isActive
* src/middleware/uploadmiddleware.js (the stripeUtils portion)
                              — calculateLeadCost, processAutoTopUp,
                                checkAndProcessAutoTopUps, handlePaymentFailure
* src/routes/request.js       — a second calculateLeadCost, POST /contact/:leadId
* src/routes/stripe.js        — POST /confirm-payment, webhook handlers

Credits are modelled as `Int` (JS numbers used integrally by the code);
JS `undefined`/optional fields as `Option`; JS truthiness is modelled
explicitly where the code relies on it.
-/

/-- `user.stats` sub-document (the fields the core reads/writes). -/
structure Stats where
  leadsContacted : Nat := 0
  creditsSpent : Int := 0
  totalCreditsPurchased : Int := 0
deriving Repr, DecidableEq

/-- `user.preferences.autoTopUp` sub-document. -/
structure AutoTopUpPrefs where
  enabled : Bool := false
  paymentMethodId : Option String := none
  threshold : Option Int := none
  packageType : Option String := none
deriving Repr, DecidableEq

/-- The slice of the User document the credit core operates on. -/
structure User where
  id : Nat
  credits : Int := 0
  stats : Stats := {}
  autoTopUpPrefs : AutoTopUpPrefs := {}
  stripeCustomerId : Option String := none
  profilePhone : Option String := none
deriving Repr, DecidableEq

/-- CreditTransaction `type` enum. -/
inductive TxType
  | purchase | spend | refund | bonus | adjustment
deriving Repr, DecidableEq

/-- CreditTransaction `status` enum. -/
inductive TxStatus
  | pending | completed | failed | refunded | cancelled
deriving Repr, DecidableEq

/-- One row of the credit ledger (src/models/CreditTransaction.js).
`stripePaymentIntentId` carries a unique sparse index in the schema;
`purpose` is the `metadata.purpose` tag some writers set. -/
structure CreditTransaction where
  user : Nat
  type : TxType
  amount : Int
  stripePaymentIntentId : Option String := none
  leadId : Option Nat := none
  purpose : Option String := none
  status : TxStatus := .pending
  balanceAfter : Int := 0
  failureReason : Option String := none
deriving Repr, DecidableEq

/-- One quote pushed onto `request.quotes` by the contact route. -/
structure Quote where
  provider : Nat
  message : Option String := none
  contactPhone : Option String := none
  amount : Option Int := none
deriving Repr, DecidableEq

/-- `request.analytics` sub-document (the fields the contact route touches). -/
structure Analytics where
  quotesReceived : Nat := 0
  contactsInitiated : Nat := 0
  contactedProviders : List Nat := []
  firstResponseTime : Option Int := none
deriving Repr, DecidableEq

/-- The slice of the Request document the core reads/writes.  Optional JS
paths (`request.budget?.amount`, `request.timeline?.urgency`,
`request.category?.slug`, `request.location?.city`) become `Option`s. -/
structure Request where
  id : Nat
  customerId : Nat := 0
  customerFirstName : String := ""
  customerLastName : String := ""
  customerEmail : String := ""
  customerPhone : String := ""
  status : String := "published"
  expiresAt : Option Int := none
  promotionalLead : Bool := false
  budgetAmount : Option Int := none
  urgency : Option String := none
  categorySlug : Option String := none
  categoryName : String := ""
  city : Option String := none
  quotes : List Quote := []
  analytics : Analytics := {}
deriving Repr, DecidableEq

/-- `requestSchema.methods.isActive` (src/models/request.js:77-82):
status is in the active set, `expiresAt` is present (a Date object is
always truthy), and `expiresAt > new Date()`.  `now` is the current time. -/
def Request.isActive (r : Request) (now : Int) : Bool :=
  (["published", "receiving_quotes", "quotes_received"].contains r.status) &&
  (match r.expiresAt with
   | some e => decide (now < e)
   | none => false)

/-- JS `String.prototype.toLowerCase()`; character-wise lowering, which
agrees with JS on the ASCII city names the code compares against.
(`String.toLower` itself is avoided because its `String.mapAux` does not
reduce inside the kernel.) -/
def jsToLower (s : String) : String := ⟨s.data.map Char.toLower⟩

namespace StripeUtils

/-- `complexCategories` constant inside stripeUtils calculateLeadCost. -/
def complexCategories : List String := ["legal", "financial", "medical", "engineering"]

/-- `premiumCities` constant inside stripeUtils calculateLeadCost. -/
def premiumCities : List String := ["london", "manchester", "birmingham", "leeds", "glasgow"]

/-- `calculateLeadCost(request, provider)` from the stripeUtils module
(src/middleware/uploadmiddleware.js:270-322, the richer variant).

The JS guard `if (request.budget?.amount)` is truthiness: amount 0 skips
the budget block.  `Math.floor(cost * 0.7)` and `Math.floor(cost * 0.5)`
are modelled as `(cost * 7) / 10` and `cost / 2`; for every cost the
accumulation phase can reach (integers 5..22) the double-precision
product rounds so that its floor equals the exact rational floor, so the
integer divisions are faithful. -/
def calculateLeadCost (request : Request) (provider : User) : Int :=
  let baseCost : Int := 5
  let cost := baseCost
  let cost := match request.budgetAmount with
    | some amt =>
      if amt = 0 then cost
      else if amt ≥ 2000 then cost + 8
      else if amt ≥ 1000 then cost + 5
      else if amt ≥ 500 then cost + 3
      else if amt ≥ 200 then cost + 2
      else if amt ≥ 100 then cost + 1
      else cost
    | none => cost
  let cost := match request.urgency with
    | some u =>
      if u = "urgent" then cost + 4
      else if u = "high" then cost + 2
      else if u = "medium" then cost + 1
      else cost
    | none => cost
  let cost := match request.categorySlug with
    | some slug => if complexCategories.contains slug then cost + 3 else cost
    | none => cost
  let cost := match request.city with
    | some c => if premiumCities.contains (jsToLower c) then cost + 2 else cost
    | none => cost
  let cost := if provider.stats.leadsContacted < 5 then max 1 ((cost * 7) / 10) else cost
  let cost := if request.promotionalLead then max 1 (cost / 2) else cost
  max 1 (min cost 20)

end StripeUtils

namespace RequestRoutes

/-- `premiumCategories` constant inside the request-route calculateLeadCost. -/
def premiumCategories : List String :=
  ["home-improvement", "legal-services", "financial-services",
   "wedding-services", "business-services"]

/-- `majorCities` constant inside the request-route calculateLeadCost.
Note every entry keeps its original capitalisation. -/
def majorCities : List String :=
  ["London", "Manchester", "Birmingham", "Glasgow", "Liverpool", "Leeds",
   "Edinburgh", "Bristol",
   "New York", "Los Angeles", "Chicago", "Houston", "Phoenix",
   "Philadelphia", "San Antonio", "San Diego", "Dallas", "San Jose",
   "Karachi", "Lahore", "Islamabad", "Rawalpindi", "Faisalabad",
   "Multan", "Peshawar", "Quetta", "Hyderabad"]

/-- JS `hay.includes(needle)`: substring containment. -/
def jsIncludes (hay needle : String) : Bool :=
  decide (List.IsInfix needle.data hay.data)

/-- `calculateLeadCost(request, provider)` local to src/routes/request.js
(lines 648-694, the Bark-style variant actually called by the contact
route).  The city test is
`majorCities.some(city => request.location?.city?.toLowerCase().includes(city))`:
the lowercased city string is tested for containing each capitalised
entry. -/
def calculateLeadCost (request : Request) (provider : User) : Int :=
  let baseCost : Int := 5
  let baseCost :=
    if (match request.categorySlug with
        | some slug => premiumCategories.contains slug
        | none => false)
    then (8 : Int) else baseCost
  let baseCost :=
    if majorCities.any (fun city =>
        match request.city with
        | some c => jsIncludes (jsToLower c) city
        | none => false)
    then baseCost + 2 else baseCost
  let baseCost := if request.urgency = some "urgent" then baseCost + 1 else baseCost
  let quotesCount := request.quotes.length
  let baseCost :=
    if quotesCount < 2 then baseCost - 1
    else if quotesCount ≥ 5 then baseCost + 2
    else baseCost
  let _ := provider
  max baseCost 3

end RequestRoutes

/-- C6: the claim says the pricing function yields 20 before the
new-provider discount (the sum 22 clamped to 20) and floor(20 × 0.7) = 14
after it.  The code applies the ×0.7 discount to the unclamped sum 22 and
clamps only at the end, so a new provider is charged
floor(22 × 0.7) = 15, not 14; the theorem exhibits the 15. -/
theorem C6_counterexample_new_provider_cost_is_15 :
    StripeUtils.calculateLeadCost
      { id := 1, budgetAmount := some 2000, urgency := some "urgent",
        categorySlug := some "legal", city := some "London" }
      { id := 2, stats := { leadsContacted := 0 } } = 15 := by
  decide

/-- C6 (amended): for the request (budget 2000, urgency urgent, category
legal, city London, non-promotional) the pricing function returns 20 for
a provider with 5 or more contacted leads (sum 22 clamped to the maximum
20), and 15 for a provider with fewer than 5 contacted leads: the ×0.7
discount is applied to the unclamped sum 22, giving floor(15.4) = 15,
inside the final [1, 20] clamp. -/
theorem C6_amended_cost_20_seasoned_15_new :
    StripeUtils.calculateLeadCost
      { id := 1, budgetAmount := some 2000, urgency := some "urgent",
        categorySlug := some "legal", city := some "London" }
      { id := 2, stats := { leadsContacted := 5 } } = 20 ∧
    StripeUtils.calculateLeadCost
      { id := 1, budgetAmount := some 2000, urgency := some "urgent",
        categorySlug := some "legal", city := some "London" }
      { id := 2, stats := { leadsContacted := 0 } } = 15 := by
  constructor <;> decide

/-- C7: the pricing function is deterministic — it is a pure function of
its two arguments, so identical inputs give identical outputs — and its
result always lies in the configured [1, 20] bounds.  This holds for the
stripeUtils variant (explicit final clamp `max 1 (min cost 20)`) and also
for the request-route variant (whose arithmetic keeps `max baseCost 3`
within [3, 13]). -/
theorem C7_pricing_deterministic_and_bounded :
    ∀ (r : Request) (p : User),
      StripeUtils.calculateLeadCost r p = StripeUtils.calculateLeadCost r p ∧
      (1 ≤ StripeUtils.calculateLeadCost r p ∧ StripeUtils.calculateLeadCost r p ≤ 20) ∧
      (1 ≤ RequestRoutes.calculateLeadCost r p ∧ RequestRoutes.calculateLeadCost r p ≤ 20) := by
  intro r p
  refine ⟨rfl, ?_, ?_⟩
  · simp only [StripeUtils.calculateLeadCost]
    constructor <;> omega
  · simp only [RequestRoutes.calculateLeadCost]
    split_ifs <;> constructor <;> omega

/-- JS `a || b` on strings: the empty string is falsy. -/
def jsOrStr (a b : Option String) : Option String :=
  match a with
  | some s => if s = "" then b else some s
  | none => b

namespace RequestRoutes

/-- The error responses POST /contact/:leadId can answer before touching
any state (src/routes/request.js:1341-1375). -/
inductive ContactError
  | inactive
  | alreadyContacted
  | insufficientCredits (required current : Int)
deriving Repr, DecidableEq

/-- The success payload of POST /contact/:leadId: `creditsUsed`,
`remainingCredits` and the customer contact details it reveals. -/
structure ContactSuccess where
  leadId : Nat
  creditsUsed : Int
  remainingCredits : Int
  customerName : String
  customerEmail : String
  customerPhone : String
deriving Repr, DecidableEq

/-- POST /contact/:leadId (src/routes/request.js:1309-1441), from the
point where the request document has been loaded.  Mirrors the handler
order: active check, already-contacted check, cost + isFree computation,
credit check and deduction (only when the lead is paid and `useCredits`
is true), then recording the contact, the quote and the provider stats.
On an error response the handler returns before mutating anything, so
the error carries no state.  The handler never creates a
CreditTransaction.  (The default quote message is paraphrased; its text
plays no role.) -/
def contactLead (now : Int) (provider : User) (request : Request)
    (message phoneNumber : Option String) (useCredits : Bool) :
    Except ContactError (ContactSuccess × User × Request) :=
  if !(request.isActive now) then .error .inactive
  else if request.analytics.contactedProviders.contains provider.id then
    .error .alreadyContacted
  else
    let leadCost := calculateLeadCost request provider
    let isFree : Bool := decide (leadCost ≤ 3) || request.promotionalLead
    if (!isFree && useCredits) && decide (provider.credits < leadCost) then
      .error (.insufficientCredits leadCost provider.credits)
    else
      let provider1 :=
        if !isFree && useCredits then
          { provider with credits := provider.credits - leadCost }
        else provider
      let newQuote : Quote :=
        { provider := provider.id,
          message := some (message.getD
            ("Hi " ++ request.customerFirstName ++ ", I am interested in your "
              ++ request.categoryName ++ " project.")),
          contactPhone := jsOrStr phoneNumber provider.profilePhone,
          amount := none }
      let request1 := { request with
        analytics := { request.analytics with
          contactedProviders := request.analytics.contactedProviders ++ [provider.id],
          contactsInitiated := request.analytics.contactsInitiated + 1,
          quotesReceived := request.analytics.quotesReceived + 1,
          firstResponseTime := some (request.analytics.firstResponseTime.getD now) },
        quotes := request.quotes ++ [newQuote] }
      let provider2 := { provider1 with
        stats := { provider1.stats with
          leadsContacted := provider1.stats.leadsContacted + 1,
          creditsSpent := provider1.stats.creditsSpent +
            (if !isFree && useCredits then leadCost else 0) } }
      .ok ({ leadId := request.id,
             creditsUsed := if !isFree && useCredits then leadCost else 0,
             remainingCredits := provider2.credits,
             customerName := request.customerFirstName ++ " " ++ request.customerLastName,
             customerEmail := request.customerEmail,
             customerPhone := request.customerPhone },
           provider2, request1)

end RequestRoutes

/-- The contact route only updates `analytics` and `quotes`; `isActive`
reads `status` and `expiresAt`, so activity is unchanged by the update. -/
theorem isActive_update (r : Request) (a : Analytics) (q : List Quote) (now : Int) :
    ({ r with analytics := a, quotes := q } : Request).isActive now = r.isActive now := rfl

/-- C10: for an active, not-yet-contacted, paid (non-free) lead, calling
the contact route with `useCredits = false` succeeds with no credit
check: it records the contact, increments the quote counter, returns the
customer email and phone, and leaves `credits` and `stats.creditsSpent`
unchanged.  (The handler never creates a CreditTransaction at all, so no
ledger entry is created on this path.) -/
theorem C10_useCredits_false_contact_without_debit
    (now : Int) (provider : User) (request : Request)
    (msg ph : Option String)
    (hactive : request.isActive now = true)
    (hnew : request.analytics.contactedProviders.contains provider.id = false)
    (hpaid : (decide (RequestRoutes.calculateLeadCost request provider ≤ 3)
              || request.promotionalLead) = false) :
    ∃ res prov req,
      RequestRoutes.contactLead now provider request msg ph false = .ok (res, prov, req) ∧
      res.creditsUsed = 0 ∧
      res.customerEmail = request.customerEmail ∧
      res.customerPhone = request.customerPhone ∧
      prov.credits = provider.credits ∧
      prov.stats.creditsSpent = provider.stats.creditsSpent ∧
      prov.stats.leadsContacted = provider.stats.leadsContacted + 1 ∧
      req.analytics.contactedProviders
        = request.analytics.contactedProviders ++ [provider.id] ∧
      req.analytics.quotesReceived = request.analytics.quotesReceived + 1 := by
  unfold RequestRoutes.contactLead
  rw [hactive, hnew]
  simp only [Bool.not_true, Bool.and_false, Bool.false_and, Bool.and_self,
    if_false, ite_false, Bool.false_eq_true, add_zero]
  exact ⟨_, _, _, rfl, rfl, rfl, rfl, rfl, rfl, rfl, rfl, rfl⟩

/-- A published request expiring at time 100, with two quotes already on
it (so the route-local pricing gives base 5 with no competition
adjustment: cost 5, not free, not promotional). -/
def exPaidReq : Request :=
  { id := 42, customerFirstName := "Ann", customerLastName := "Lee",
    customerEmail := "ann@example.com", customerPhone := "0700",
    status := "published", expiresAt := some 100,
    quotes := [{ provider := 100 }, { provider := 101 }] }

/-- A provider with id 7 and balance 3 (below the cost 5 of `exPaidReq`). -/
def poorProv : User := { id := 7, credits := 3 }

/-- A provider with id 7 and balance 10 (enough for the cost 5). -/
def richProv : User := { id := 7, credits := 10 }

/-- C10 witness: the concrete paid lead `exPaidReq` contacted by the
broke provider with `useCredits = false` — the call succeeds without
any debit. -/
theorem C10_useCredits_false_contact_without_debit_witness :
    ∃ res prov req,
      RequestRoutes.contactLead 0 poorProv exPaidReq none none false = .ok (res, prov, req) ∧
      res.creditsUsed = 0 ∧
      res.customerEmail = exPaidReq.customerEmail ∧
      res.customerPhone = exPaidReq.customerPhone ∧
      prov.credits = poorProv.credits ∧
      prov.stats.creditsSpent = poorProv.stats.creditsSpent ∧
      prov.stats.leadsContacted = poorProv.stats.leadsContacted + 1 ∧
      req.analytics.contactedProviders
        = exPaidReq.analytics.contactedProviders ++ [poorProv.id] ∧
      req.analytics.quotesReceived = exPaidReq.analytics.quotesReceived + 1 :=
  C10_useCredits_false_contact_without_debit 0 poorProv exPaidReq none none
    (by decide) (by decide) (by decide)

/-- C5 counterexample: active, not promotional, cost 5, balance 3 — the
claim says the contact operation fails with insufficient-credits and
mutates nothing, but the request-body flag `useCredits = false` makes
the very same operation succeed: the contact is recorded (provider 7
enters the contacted set) with the balance left at 3. -/
theorem C5_counterexample_useCredits_false_no_failure :
    RequestRoutes.calculateLeadCost exPaidReq poorProv = 5 ∧
    poorProv.credits = 3 ∧
    exPaidReq.isActive 0 = true ∧
    exPaidReq.promotionalLead = false ∧
    (RequestRoutes.contactLead 0 poorProv exPaidReq none none false).toOption.map
        (fun out => (out.2.1.credits, out.2.2.analytics.contactedProviders))
      = some (3, [7]) := by
  refine ⟨by decide, by decide, by decide, by decide, by decide⟩

/-- C5 (amended): for an active, not-yet-contacted, non-free lead and a
provider whose balance is below the computed cost, the contact operation
invoked with `useCredits = true` fails with the insufficient-credits
error, and — the handler returning before any mutation — the provider,
the request and the ledger are untouched; with `useCredits = false` the
check is bypassed (see C10). -/
theorem C5_amended_insufficient_credits_rejected
    (now : Int) (provider : User) (request : Request)
    (msg ph : Option String)
    (hactive : request.isActive now = true)
    (hnew : request.analytics.contactedProviders.contains provider.id = false)
    (hpaid : (decide (RequestRoutes.calculateLeadCost request provider ≤ 3)
              || request.promotionalLead) = false)
    (hpoor : provider.credits < RequestRoutes.calculateLeadCost request provider) :
    RequestRoutes.contactLead now provider request msg ph true
      = .error (.insufficientCredits
          (RequestRoutes.calculateLeadCost request provider) provider.credits) := by
  unfold RequestRoutes.contactLead
  rw [hactive, hnew]
  simp [hpaid, hpoor]

/-- C5 witness: balance 3 against cost 5 with `useCredits = true` is
rejected with the insufficient-credits error. -/
theorem C5_amended_insufficient_credits_rejected_witness :
    RequestRoutes.contactLead 0 poorProv exPaidReq none none true
      = .error (.insufficientCredits
          (RequestRoutes.calculateLeadCost exPaidReq poorProv) poorProv.credits) :=
  C5_amended_insufficient_credits_rejected 0 poorProv exPaidReq none none
    (by decide) (by decide) (by decide) (by decide)

/-- C4: after a successful paid first contact, the provider appears once
more (hence exactly once if previously absent) in the contacted set, the
balance is debited exactly once (the first call deducts the cost, the
second call returns the duplicate-contact error and carries no state
change), and a second call — whatever its message, phone or useCredits
flag — fails with the duplicate-contact error. -/
theorem C4_second_contact_rejected_single_debit
    (now now2 : Int) (provider : User) (request : Request)
    (msg ph msg2 ph2 : Option String) (uc2 : Bool)
    (hactive : request.isActive now = true)
    (hactive2 : request.isActive now2 = true)
    (hnew : request.analytics.contactedProviders.contains provider.id = false)
    (hpaid : (decide (RequestRoutes.calculateLeadCost request provider ≤ 3)
              || request.promotionalLead) = false)
    (haff : RequestRoutes.calculateLeadCost request provider ≤ provider.credits) :
    ∃ res prov1 req1,
      RequestRoutes.contactLead now provider request msg ph true = .ok (res, prov1, req1) ∧
      prov1.credits = provider.credits - RequestRoutes.calculateLeadCost request provider ∧
      req1.analytics.contactedProviders.count provider.id
        = request.analytics.contactedProviders.count provider.id + 1 ∧
      (request.analytics.contactedProviders.count provider.id = 0 →
        req1.analytics.contactedProviders.count provider.id = 1) ∧
      RequestRoutes.contactLead now2 prov1 req1 msg2 ph2 uc2 = .error .alreadyContacted := by
  have hdec : decide (provider.credits < RequestRoutes.calculateLeadCost request provider) = false :=
    decide_eq_false (not_lt.mpr haff)
  unfold RequestRoutes.contactLead
  rw [hactive, hnew]
  simp only [hpaid, hdec, Bool.not_false, Bool.and_true, Bool.true_and, Bool.and_false,
    Bool.false_and, if_true, ite_true, ite_false, Bool.false_eq_true]
  refine ⟨_, _, _, rfl, rfl, ?_, ?_, ?_⟩
  · simp
  · intro h0; simp [h0]
  · rw [isActive_update, hactive2]
    simp

/-- C4 witness: balance 10, cost 5 — the first contact succeeds and
debits 5, the immediate second attempt is rejected as a duplicate. -/
theorem C4_second_contact_rejected_single_debit_witness :
    ∃ res prov1 req1,
      RequestRoutes.contactLead 0 richProv exPaidReq none none true = .ok (res, prov1, req1) ∧
      prov1.credits = richProv.credits - RequestRoutes.calculateLeadCost exPaidReq richProv ∧
      req1.analytics.contactedProviders.count richProv.id
        = exPaidReq.analytics.contactedProviders.count richProv.id + 1 ∧
      (exPaidReq.analytics.contactedProviders.count richProv.id = 0 →
        req1.analytics.contactedProviders.count richProv.id = 1) ∧
      RequestRoutes.contactLead 1 prov1 req1 none none true = .error .alreadyContacted :=
  C4_second_contact_rejected_single_debit 0 1 richProv exPaidReq none none none none true
    (by decide) (by decide) (by decide) (by decide) (by decide)

/-- The persisted state of one account: its user document and the credit
transactions (ledger entries) that reference it. -/
structure AccountState where
  user : User
  txs : List CreditTransaction
deriving Repr, DecidableEq

/-- Whether some ledger entry already records the given
`stripePaymentIntentId` — the unique sparse index on that field rejects
an insert whose ref is already present (`none` is exempt: sparse). -/
def hasRef (txs : List CreditTransaction) : Option String → Bool
  | some r => txs.any (fun t => t.stripePaymentIntentId == some r)
  | none => false

/-- `userSchema.methods.spendCredits(amount, leadId, reason)`
(src/unnamed/part_001:857-882): rejects the call when
`credits < amount`, otherwise deducts, bumps `stats.creditsSpent`,
creates a completed spend entry with `balanceAfter`, saves, and returns
the new balance.  The throw happens before any mutation. -/
def spendCredits (s : AccountState) (amount : Int) (leadId : Nat) :
    Except String (AccountState × Int) :=
  if s.user.credits < amount then .error "Insufficient credits"
  else
    let credits := s.user.credits - amount
    let user := { s.user with
      credits := credits,
      stats := { s.user.stats with
        creditsSpent := s.user.stats.creditsSpent + amount } }
    let tx : CreditTransaction :=
      { user := s.user.id, type := .spend, amount := -amount,
        leadId := some leadId, purpose := some "lead_contact",
        status := .completed, balanceAfter := credits }
    .ok ({ user := user, txs := s.txs ++ [tx] }, credits)

/-- `userSchema.methods.addCredits(amount, transactionData)`
(src/unnamed/part_001:885-907): adds to the balance and
`stats.totalCreditsPurchased`, creates a completed purchase entry, saves
the user, returns the new balance.  `CreditTransaction.create` runs
before `this.save()`: when the unique index rejects a duplicate
`stripePaymentIntentId` the user document is never saved, so the stored
state is unchanged. -/
def addCredits (s : AccountState) (amount : Int) (txType : TxType)
    (ref : Option String) : Except String (AccountState × Int) :=
  let credits := s.user.credits + amount
  let user := { s.user with
    credits := credits,
    stats := { s.user.stats with
      totalCreditsPurchased := s.user.stats.totalCreditsPurchased + amount } }
  let tx : CreditTransaction :=
    { user := s.user.id, type := txType, amount := amount,
      stripePaymentIntentId := ref, status := .completed, balanceAfter := credits }
  if hasRef s.txs ref then .error "E11000 duplicate key"
  else .ok ({ user := user, txs := s.txs ++ [tx] }, credits)

/-- `creditTransactionSchema.methods.processTransaction()`
(src/models/CreditTransaction.js:187-217), on the entry at index `i`:
throws when the entry is not pending, otherwise sets
`user.credits = Math.max(0, previousBalance + amount)` — the balance is
clamped at zero, the call never fails on an overdrawing amount — marks
the entry completed with `balanceAfter`, saves both documents, and
returns `{previousBalance, newBalance}`. -/
def processTransaction (s : AccountState) (i : Nat) :
    Except String (AccountState × Int × Int) :=
  match s.txs.get? i with
  | none => .error "Transaction not found"
  | some tx =>
    if tx.status ≠ TxStatus.pending then .error "Transaction already processed"
    else
      let previousBalance := s.user.credits
      let credits := max 0 (previousBalance + tx.amount)
      let user := { s.user with credits := credits }
      let tx2 := { tx with balanceAfter := credits, status := TxStatus.completed }
      .ok ({ user := user, txs := s.txs.set i tx2 }, previousBalance, credits)

/-- C1 counterexample: a pending spend of 5 against a balance of 3.
`processTransaction` does not fail: it completes, returning previous
balance 3 and new balance 0 — the debit exceeded the balance yet state
was mutated (balance clamped to 0), contradicting the claim that any
overdrawing debit fails before mutating. -/
theorem C1_counterexample_processTransaction_clamps :
    (processTransaction
        { user := { id := 1, credits := 3 },
          txs := [{ user := 1, type := .spend, amount := -5, status := .pending }] }
        0).toOption.map (fun out => (out.1.user.credits, out.2.1, out.2.2))
      = some (0, 3, 0) := by
  decide

/-- One balance-affecting operation, as the claims enumerate them:
`spendCredits`, `addCredits`, `processTransaction`, and the
contact-route debit. -/
inductive LedgerOp
  | spendOp (amount : Int) (leadId : Nat)
  | addOp (amount : Int) (txType : TxType) (ref : Option String)
  | processOp (i : Nat)
  | contactOp (now : Int) (request : Request) (message phoneNumber : Option String)
      (useCredits : Bool)
deriving Repr

/-- Call-site discipline: `addCredits` is only ever invoked with the
positive credit amount of a purchased package (280/560/1120) or of a
validated payment's metadata (`isInt({min: 1})`); the other operations
guard themselves.  `valid` records exactly that. -/
def LedgerOp.valid : LedgerOp → Bool
  | .addOp amount _ _ => decide (0 ≤ amount)
  | _ => true

/-- Run one operation against the account, keeping the stored state
unchanged whenever the operation answers with an error (every error
path in the sources returns before persisting anything). -/
def LedgerOp.step (s : AccountState) : LedgerOp → AccountState
  | .spendOp a l =>
    match spendCredits s a l with
    | .ok (s1, _) => s1
    | .error _ => s
  | .addOp a t r =>
    match addCredits s a t r with
    | .ok (s1, _) => s1
    | .error _ => s
  | .processOp i =>
    match processTransaction s i with
    | .ok (s1, _, _) => s1
    | .error _ => s
  | .contactOp now req m p uc =>
    match RequestRoutes.contactLead now s.user req m p uc with
    | .ok (_, u1, _) => { s with user := u1 }
    | .error _ => s

/-- Run a whole sequence of operations. -/
def runOps (s : AccountState) (ops : List LedgerOp) : AccountState :=
  ops.foldl LedgerOp.step s

/-- A successful contact either leaves the balance unchanged (free lead
or `useCredits` false) or debits exactly the computed cost, which the
guard has checked to be affordable. -/
theorem contactLead_ok_credits {now : Int} {provider : User} {request : Request}
    {m p : Option String} {uc : Bool} {res : RequestRoutes.ContactSuccess}
    {u1 : User} {r1 : Request}
    (hc : RequestRoutes.contactLead now provider request m p uc = .ok (res, u1, r1)) :
    u1.credits = provider.credits ∨
      (u1.credits = provider.credits - RequestRoutes.calculateLeadCost request provider ∧
        RequestRoutes.calculateLeadCost request provider ≤ provider.credits) := by
  unfold RequestRoutes.contactLead at hc
  split at hc
  · exact absurd hc (by simp)
  · split at hc
    · exact absurd hc (by simp)
    · dsimp only at hc
      split at hc
      · exact absurd hc (by simp)
      · next hguard =>
        cases hc
        by_cases hcond :
            ((!(decide (RequestRoutes.calculateLeadCost request provider ≤ 3)
                || request.promotionalLead)) && uc) = true
        · right
          rw [if_pos hcond]
          refine ⟨rfl, ?_⟩
          by_contra hgt
          exact hguard (by
            rw [hcond]
            simp only [Bool.true_and, decide_eq_true_eq]
            omega)
        · left
          rw [if_neg hcond]

/-- One step preserves balance non-negativity. -/
theorem step_nonneg (s : AccountState) (op : LedgerOp)
    (hv : op.valid = true) (h : 0 ≤ s.user.credits) :
    0 ≤ (op.step s).user.credits := by
  cases op with
  | spendOp a l =>
    simp only [LedgerOp.step, spendCredits]
    split
    next h1 =>
      split at h1
      · simp_all
      · next hlt =>
        cases h1
        simp only []
        omega
    next => exact h
  | addOp a t r =>
    simp only [LedgerOp.valid, decide_eq_true_eq] at hv
    simp only [LedgerOp.step, addCredits]
    split
    next h1 =>
      split at h1
      · simp_all
      · cases h1
        simp only []
        omega
    next => exact h
  | processOp i =>
    simp only [LedgerOp.step, processTransaction]
    split
    next h1 =>
      split at h1
      · simp_all
      · split at h1
        · simp_all
        · cases h1
          simp only []
          positivity
    next => exact h
  | contactOp now req m p uc =>
    simp only [LedgerOp.step]
    cases hc : RequestRoutes.contactLead now s.user req m p uc with
    | error e => exact h
    | ok out =>
      obtain ⟨res, u1, r1⟩ := out
      rcases contactLead_ok_credits hc with h1 | ⟨h1, h2⟩
      · simpa [h1] using h
      · simp only [h1]
        omega

/-- C1 (amended): over every sequence of debit/credit operations as the
code invokes them, the balance never becomes negative — `spendCredits`
and the contact-route debit reject an overdraft before mutating anything
— but `processTransaction` is the exception to the claim's second half:
on an overdrawing pending debit it does not fail; it completes after
clamping the balance to zero (see the C1 counterexample). -/
theorem C1_amended_nonneg_and_overdraft_rejection :
    (∀ (s : AccountState) (ops : List LedgerOp),
      (∀ op ∈ ops, op.valid = true) → 0 ≤ s.user.credits →
      0 ≤ (runOps s ops).user.credits) ∧
    (∀ (s : AccountState) (amount : Int) (leadId : Nat),
      s.user.credits < amount →
      spendCredits s amount leadId = .error "Insufficient credits") := by
  constructor
  · intro s ops
    induction ops generalizing s with
    | nil => intro _ h; exact h
    | cons op rest ih =>
      intro hv h
      exact ih (op.step s) (fun o ho => hv o (List.mem_cons_of_mem op ho))
        (step_nonneg s op (hv op (List.mem_cons_self op rest)) h)
  · intro s amount leadId hlt
    unfold spendCredits
    rw [if_pos hlt]

/-- C1 witness: a concrete run (add 10, spend 4, an overdraft attempt of
99 that is rejected, contact a paid lead for 5) keeps the balance at
0 ≤ 1, and a direct overdraft call is rejected. -/
theorem C1_amended_nonneg_and_overdraft_rejection_witness :
    (0 ≤ (runOps { user := { id := 7 }, txs := [] }
      [LedgerOp.addOp 10 .purchase (some "pi_w1"), LedgerOp.spendOp 4 42,
       LedgerOp.spendOp 99 43,
       LedgerOp.contactOp 0 exPaidReq none none true]).user.credits) ∧
    spendCredits { user := { id := 7, credits := 3 }, txs := [] } 5 42
      = .error "Insufficient credits" :=
  ⟨C1_amended_nonneg_and_overdraft_rejection.1 _ _ (by decide) (by decide),
   C1_amended_nonneg_and_overdraft_rejection.2 _ 5 42 (by decide)⟩

/-- Sum of the signed amounts of the completed ledger entries — the
reconciliation quantity of the spec. -/
def completedSum (txs : List CreditTransaction) : Int :=
  ((txs.filter (fun t => t.status == TxStatus.completed)).map
    (fun t => t.amount)).sum

/-- The reconciliation invariant: the stored balance equals the sum of
completed entries. -/
def reconciled (s : AccountState) : Prop :=
  completedSum s.txs = s.user.credits

instance : DecidablePred reconciled := fun s =>
  inferInstanceAs (Decidable (completedSum s.txs = s.user.credits))

theorem completedSum_append (a b : List CreditTransaction) :
    completedSum (a ++ b) = completedSum a + completedSum b := by
  simp [completedSum, List.filter_append]

theorem completedSum_single_completed (t : CreditTransaction)
    (h : t.status = TxStatus.completed) : completedSum [t] = t.amount := by
  simp [completedSum, List.filter, h]

/-- C2 (amended): `spendCredits` and `addCredits` each append exactly one
completed entry whose signed amount matches the balance change, so they
preserve the reconciliation invariant.  The invariant is not maintained
by the whole system: the contact route debits without writing any entry
(see the C2 counterexample) and `processTransaction`'s zero-clamp can
complete an entry whose amount is not the balance change. -/
theorem C2_amended_spend_add_preserve_reconciliation :
    ∀ (s : AccountState), reconciled s →
      (∀ (amount : Int) (leadId : Nat) (s1 : AccountState) (n : Int),
        spendCredits s amount leadId = .ok (s1, n) → reconciled s1) ∧
      (∀ (amount : Int) (txType : TxType) (ref : Option String)
          (s1 : AccountState) (n : Int),
        addCredits s amount txType ref = .ok (s1, n) → reconciled s1) := by
  intro s hs
  constructor
  · intro amount leadId s1 n h
    unfold spendCredits at h
    split at h
    · exact absurd h (by simp)
    · cases h
      unfold reconciled at hs ⊢
      rw [completedSum_append, completedSum_single_completed _ rfl]
      show completedSum s.txs + -amount = s.user.credits - amount
      omega
  · intro amount txType ref s1 n h
    unfold addCredits at h
    split at h
    · exact absurd h (by simp)
    · cases h
      unfold reconciled at hs ⊢
      rw [completedSum_append, completedSum_single_completed _ rfl]
      show completedSum s.txs + amount = s.user.credits + amount
      omega

/-- A reconciled seed account: balance 10 backed by one completed
purchase entry of 10. -/
def recState : AccountState :=
  { user := { id := 7, credits := 10 },
    txs := [{ user := 7, type := .purchase, amount := 10,
              stripePaymentIntentId := some "pi_seed", status := .completed,
              balanceAfter := 10 }] }

/-- `recState` after `spendCredits 4` on lead 42. -/
def recStateAfterSpend : AccountState :=
  { user := { id := 7, credits := 6, stats := { creditsSpent := 4 } },
    txs := recState.txs ++ [{ user := 7, type := .spend, amount := -4,
                              leadId := some 42, purpose := some "lead_contact",
                              status := .completed, balanceAfter := 6 }] }

/-- C2 witness: spending 4 from the reconciled seed account leaves a
reconciled account. -/
theorem C2_amended_spend_add_preserve_reconciliation_witness :
    reconciled recStateAfterSpend :=
  (C2_amended_spend_add_preserve_reconciliation recState (by decide)).1 4 42
    recStateAfterSpend 6 rfl

/-- The account state left behind by the contact-route debit of lead 42
from the reconciled seed account: the user document is updated (balance
10 → 5) but the ledger is untouched, because POST /contact/:leadId
creates no CreditTransaction. -/
def contactDebitResultState : AccountState :=
  { user := ((RequestRoutes.contactLead 0 recState.user exPaidReq none none true).toOption.map
      (fun out => out.2.1)).getD recState.user,
    txs := recState.txs }

/-- C2 counterexample: the seed account is reconciled (completed sum 10 =
balance 10); one successful paid contact (cost 5, useCredits true)
drops the balance to 5 while appending no ledger entry, so the
reconciliation invariant no longer holds. -/
theorem C2_counterexample_contact_debit_writes_no_entry :
    reconciled recState ∧
    (RequestRoutes.contactLead 0 recState.user exPaidReq none none true).toOption.isSome = true ∧
    contactDebitResultState.user.credits = 5 ∧
    ¬ reconciled contactDebitResultState := by
  exact ⟨by decide, by decide, by decide, by decide⟩

/-- The fields of a Stripe payment intent that POST /confirm-payment
reads (`metadata.credits` already parsed, `metadata.autoTopUp` already
compared with the string true). -/
structure PaymentIntent where
  id : String
  customer : Option String := none
  status : String := "succeeded"
  credits : Int := 0
  paymentMethod : Option String := none
  packageType : Option String := none
  autoTopUpFlag : Bool := false
  purpose : Option String := none
  failureMessage : Option String := none
deriving Repr, DecidableEq

/-- The responses POST /confirm-payment can produce. -/
inductive ConfirmResult
  | ok (creditsPurchased newBalance : Int)
  | unauthorized
  | notCompleted (status : String)
  | serverError
deriving Repr, DecidableEq

namespace StripeRoutes

/-- POST /confirm-payment (src/routes/stripe.js:135-338), for calls that
carry no `leadId` (the optional auto-contact block is skipped).  Mirrors
the handler order: ownership check, status check, then
`user.credits += credits` and stats, `await user.save()` — the credited
balance is persisted HERE — and only then the CreditTransaction insert,
which the unique sparse index on `stripePaymentIntentId` rejects when an
entry with the same ref exists; the catch block answers 500, but the
user document has already been saved credited.  `balanceAfter` on the
inserted entry comes from the model pre-save hook, which reads the
already-credited balance and adds the amount again. -/
def confirmPayment (s : AccountState) (pi : PaymentIntent) :
    AccountState × ConfirmResult :=
  if s.user.stripeCustomerId ≠ pi.customer then (s, .unauthorized)
  else if pi.status ≠ "succeeded" then (s, .notCompleted pi.status)
  else
    let credits := s.user.credits + pi.credits
    let user := { s.user with
      credits := credits,
      stats := { s.user.stats with
        totalCreditsPurchased := s.user.stats.totalCreditsPurchased + pi.credits },
      autoTopUpPrefs :=
        if pi.autoTopUpFlag && pi.paymentMethod.isSome then
          { enabled := true, paymentMethodId := pi.paymentMethod,
            threshold := some 10, packageType := pi.packageType }
        else s.user.autoTopUpPrefs }
    let s1 : AccountState := { user := user, txs := s.txs }
    if hasRef s1.txs (some pi.id) then (s1, .serverError)
    else
      let tx : CreditTransaction :=
        { user := s.user.id, type := .purchase, amount := pi.credits,
          stripePaymentIntentId := some pi.id, status := .completed,
          balanceAfter := credits + pi.credits }
      ({ user := user, txs := s1.txs ++ [tx] }, .ok pi.credits credits)

end StripeRoutes

/-- The account and payment intent of the replayed-credit scenario:
empty ledger, balance 0, a succeeded intent for 280 credits. -/
def C3seed : AccountState :=
  { user := { id := 1, credits := 0, stripeCustomerId := some "cus_1" }, txs := [] }

/-- The succeeded payment intent pi_123 for 280 credits. -/
def C3intent : PaymentIntent :=
  { id := "pi_123", customer := some "cus_1", status := "succeeded", credits := 280 }

/-- State after the first /confirm-payment call for pi_123. -/
def C3afterFirst : AccountState := (StripeRoutes.confirmPayment C3seed C3intent).1

/-- State after delivering the same confirmation a second time. -/
def C3afterSecond : AccountState := (StripeRoutes.confirmPayment C3afterFirst C3intent).1

/-- C3 counterexample: the succeeded intent pi_123 (280 credits)
confirmed twice.  The claim says the end balance equals that of a single
credit (280) and the duplicate call no-ops returning the existing
balance; the code re-credits first and persists the user before the
ledger insert fails on the unique index, so the balance ends at 560 and
the duplicate call answers a 500 error, not a no-op.  (Exactly one
ledger entry with the ref does exist.) -/
theorem C3_counterexample_duplicate_ref_credits_twice :
    C3afterFirst.user.credits = 280 ∧
    C3afterSecond.user.credits = 560 ∧
    (StripeRoutes.confirmPayment C3afterFirst C3intent).2 = ConfirmResult.serverError ∧
    (C3afterSecond.txs.filter
      (fun t => t.stripePaymentIntentId == some "pi_123")).length = 1 := by
  exact ⟨by decide, by decide, by decide, by decide⟩

/-- The user document as POST /confirm-payment saves it. -/
def confirmedUser (s : AccountState) (pi : PaymentIntent) : User :=
  { s.user with
    credits := s.user.credits + pi.credits,
    stats := { s.user.stats with
      totalCreditsPurchased := s.user.stats.totalCreditsPurchased + pi.credits },
    autoTopUpPrefs :=
      if pi.autoTopUpFlag && pi.paymentMethod.isSome then
        { enabled := true, paymentMethodId := pi.paymentMethod,
          threshold := some 10, packageType := pi.packageType }
      else s.user.autoTopUpPrefs }

/-- The ledger entry POST /confirm-payment inserts. -/
def confirmTx (s : AccountState) (pi : PaymentIntent) : CreditTransaction :=
  { user := s.user.id, type := .purchase, amount := pi.credits,
    stripePaymentIntentId := some pi.id, status := .completed,
    balanceAfter := s.user.credits + pi.credits + pi.credits }

/-- A confirmation whose ref is not yet on the ledger: success. -/
theorem confirmPayment_fresh (s : AccountState) (pi : PaymentIntent)
    (hcust : s.user.stripeCustomerId = pi.customer)
    (hstat : pi.status = "succeeded")
    (hfresh : hasRef s.txs (some pi.id) = false) :
    StripeRoutes.confirmPayment s pi
      = ({ user := confirmedUser s pi, txs := s.txs ++ [confirmTx s pi] },
         ConfirmResult.ok pi.credits (s.user.credits + pi.credits)) := by
  unfold StripeRoutes.confirmPayment confirmedUser confirmTx
  rw [if_neg (by simp [hcust]), if_neg (by simp [hstat])]
  dsimp only
  rw [if_neg (by simp [hfresh])]

/-- A confirmation whose ref is already on the ledger: the user is saved
credited, then the insert fails and the route answers a server error. -/
theorem confirmPayment_dup (s : AccountState) (pi : PaymentIntent)
    (hcust : s.user.stripeCustomerId = pi.customer)
    (hstat : pi.status = "succeeded")
    (hdup : hasRef s.txs (some pi.id) = true) :
    StripeRoutes.confirmPayment s pi
      = ({ user := confirmedUser s pi, txs := s.txs }, ConfirmResult.serverError) := by
  unfold StripeRoutes.confirmPayment confirmedUser
  rw [if_neg (by simp [hcust]), if_neg (by simp [hstat])]
  dsimp only
  rw [if_pos hdup]

/-- C3 (amended): confirming a payment whose ref is not yet on the
ledger credits the balance and appends one entry carrying the ref;
confirming the SAME intent again credits the balance a second time
(persisted), then fails with a server error when the unique index
rejects the duplicate ledger insert — so the end balance is
`initial + 2 × credits` while exactly one ledger entry holds the ref,
and the duplicate call is an error, not a no-op. -/
theorem C3_amended_duplicate_ref_double_credits
    (s : AccountState) (pi : PaymentIntent)
    (hcust : s.user.stripeCustomerId = pi.customer)
    (hstat : pi.status = "succeeded")
    (hfresh : hasRef s.txs (some pi.id) = false) :
    ∃ s1, StripeRoutes.confirmPayment s pi
        = (s1, ConfirmResult.ok pi.credits (s.user.credits + pi.credits)) ∧
      s1.user.credits = s.user.credits + pi.credits ∧
      (s1.txs.filter (fun t => t.stripePaymentIntentId == some pi.id)).length = 1 ∧
      (StripeRoutes.confirmPayment s1 pi).2 = ConfirmResult.serverError ∧
      (StripeRoutes.confirmPayment s1 pi).1.user.credits
        = s.user.credits + 2 * pi.credits ∧
      (StripeRoutes.confirmPayment s1 pi).1.txs = s1.txs := by
  have hnil : s.txs.filter (fun t => t.stripePaymentIntentId == some pi.id) = [] := by
    rw [List.filter_eq_nil_iff]
    intro t ht
    have h2 : ∀ x ∈ s.txs, ¬ x.stripePaymentIntentId = some pi.id := by
      simpa [hasRef] using hfresh
    simpa using h2 t ht
  have hdup : hasRef (s.txs ++ [confirmTx s pi]) (some pi.id) = true := by
    simp [hasRef, confirmTx]
  have hd := confirmPayment_dup
    { user := confirmedUser s pi, txs := s.txs ++ [confirmTx s pi] } pi hcust hstat hdup
  refine ⟨{ user := confirmedUser s pi, txs := s.txs ++ [confirmTx s pi] },
          confirmPayment_fresh s pi hcust hstat hfresh, rfl, ?_, ?_, ?_, ?_⟩
  · show ((s.txs ++ [confirmTx s pi]).filter
      (fun t => t.stripePaymentIntentId == some pi.id)).length = 1
    rw [List.filter_append, hnil]
    simp [confirmTx]
  · rw [hd]
  · rw [hd]
    show s.user.credits + pi.credits + pi.credits = s.user.credits + 2 * pi.credits
    ring
  · rw [hd]

/-- C3 witness: the amended behaviour at the concrete replay of pi_123
over the empty-ledger account. -/
theorem C3_amended_duplicate_ref_double_credits_witness :
    ∃ s1, StripeRoutes.confirmPayment C3seed C3intent
        = (s1, ConfirmResult.ok C3intent.credits (C3seed.user.credits + C3intent.credits)) ∧
      s1.user.credits = C3seed.user.credits + C3intent.credits ∧
      (s1.txs.filter (fun t => t.stripePaymentIntentId == some C3intent.id)).length = 1 ∧
      (StripeRoutes.confirmPayment s1 C3intent).2 = ConfirmResult.serverError ∧
      (StripeRoutes.confirmPayment s1 C3intent).1.user.credits
        = C3seed.user.credits + 2 * C3intent.credits ∧
      (StripeRoutes.confirmPayment s1 C3intent).1.txs = s1.txs :=
  C3_amended_duplicate_ref_double_credits C3seed C3intent rfl rfl (by decide)

namespace StripeUtils

/-- `findOneAndUpdate`-style update used by `handlePaymentFailure`: mark
the first entry carrying the ref as failed, with the failure reason. -/
def failFirstMatch (txs : List CreditTransaction) (ref : String)
    (reason : Option String) : List CreditTransaction :=
  match txs with
  | [] => []
  | t :: ts =>
    if t.stripePaymentIntentId = some ref then
      { t with status := .failed, failureReason := reason } :: ts
    else t :: failFirstMatch ts ref reason

/-- `handlePaymentFailure(paymentIntent)` from the stripeUtils module
(src/middleware/uploadmiddleware.js:571-596): look the transaction up by
`stripePaymentIntentId`; when found, set it failed and store
`last_payment_error?.message` as the failure reason; when
`metadata.purpose === 'auto_topup'`, additionally set
`preferences.autoTopUp.enabled` to false (this happens whether or not a
transaction was found).  NOTE: this helper is exported but never
imported or called anywhere in the repository; the payment-failed
webhook that is actually wired is the stripe.js branch modelled by
`StripeRoutes.webhookPaymentFailed` below. -/
def handlePaymentFailure (s : AccountState) (pi : PaymentIntent) : AccountState :=
  let txs := failFirstMatch s.txs pi.id pi.failureMessage
  let user :=
    if pi.purpose = some "auto_topup" then
      { s.user with autoTopUpPrefs := { s.user.autoTopUpPrefs with enabled := false } }
    else s.user
  { user := user, txs := txs }

end StripeUtils

/-- `failFirstMatch` rewrites exactly the first matching entry. -/
theorem failFirstMatch_spec (pre post : List CreditTransaction)
    (t : CreditTransaction) (ref : String) (reason : Option String)
    (hpre : ∀ t2 ∈ pre, t2.stripePaymentIntentId ≠ some ref)
    (ht : t.stripePaymentIntentId = some ref) :
    StripeUtils.failFirstMatch (pre ++ t :: post) ref reason
      = pre ++ { t with status := .failed, failureReason := reason } :: post := by
  induction pre with
  | nil =>
    simp [StripeUtils.failFirstMatch, ht]
  | cons p ps ih =>
    have hp : p.stripePaymentIntentId ≠ some ref := hpre p (List.mem_cons_self p ps)
    have ih2 := ih (fun t2 h2 => hpre t2 (List.mem_cons_of_mem p h2))
    simp only [List.cons_append, StripeUtils.failFirstMatch, if_neg hp]
    exact congrArg (p :: ·) ih2

/-- The unused stripeUtils helper would implement the claimed
behaviour: it marks the first (under the unique index: the) entry
matched by the ref as failed with the processor's reason, and when the
purpose is auto_topup it sets the enabled flag to false. -/
theorem handlePaymentFailure_spec
    (s : AccountState) (pi : PaymentIntent)
    (pre post : List CreditTransaction) (t : CreditTransaction)
    (hsplit : s.txs = pre ++ t :: post)
    (hpre : ∀ t2 ∈ pre, t2.stripePaymentIntentId ≠ some pi.id)
    (ht : t.stripePaymentIntentId = some pi.id) :
    (StripeUtils.handlePaymentFailure s pi).txs
      = pre ++ { t with status := .failed, failureReason := pi.failureMessage } :: post ∧
    (pi.purpose = some "auto_topup" →
      (StripeUtils.handlePaymentFailure s pi).user.autoTopUpPrefs.enabled = false) ∧
    (pi.purpose ≠ some "auto_topup" →
      (StripeUtils.handlePaymentFailure s pi).user = s.user) := by
  refine ⟨?_, ?_, ?_⟩
  · show StripeUtils.failFirstMatch s.txs pi.id pi.failureMessage = _
    rw [hsplit]
    exact failFirstMatch_spec pre post t pi.id pi.failureMessage hpre ht
  · intro hp
    show (if pi.purpose = some "auto_topup" then _ else s.user).autoTopUpPrefs.enabled = false
    rw [if_pos hp]
  · intro hp
    show (if pi.purpose = some "auto_topup" then _ else s.user) = s.user
    rw [if_neg hp]

namespace StripeRoutes

/-- The `payment_intent.payment_failed` branch of the wired webhook,
POST /webhook (src/routes/stripe.js:484-496):
`CreditTransaction.findOneAndUpdate({stripePaymentIntentId},
{status: 'failed', failureReason: last_payment_error?.message})` and
nothing else — in particular it never touches the user document, so
`preferences.autoTopUp.enabled` is left as it was even for an
auto_topup-purpose failure. -/
def webhookPaymentFailed (s : AccountState) (pi : PaymentIntent) : AccountState :=
  { user := s.user, txs := StripeUtils.failFirstMatch s.txs pi.id pi.failureMessage }

end StripeRoutes

/-- An account with auto-top-up enabled and a pending auto-top-up
purchase of 280 credits referenced by pi_fail. -/
def C8state : AccountState :=
  { user := { id := 3, credits := 8,
              autoTopUpPrefs := { enabled := true, paymentMethodId := some "pm_3",
                                  threshold := some 10, packageType := some "starter" } },
    txs := [{ user := 3, type := .purchase, amount := 280,
              stripePaymentIntentId := some "pi_fail", status := .pending }] }

/-- The payment-failed event for pi_fail (auto-top-up purpose). -/
def C8intent : PaymentIntent :=
  { id := "pi_fail", status := "requires_payment_method",
    purpose := some "auto_topup", failureMessage := some "Your card was declined." }

/-- C8 counterexample: an auto_topup-purpose payment-failed event for
pi_fail delivered to the wired webhook handler marks the pending entry
failed with the card-declined reason, but the account's auto-top-up
enabled flag stays true — the claim that the flag is additionally set to
false on every such event is false of the handler the program actually
runs (the stripeUtils helper that would disable it is never invoked). -/
theorem C8_counterexample_webhook_never_disables_topup :
    C8intent.purpose = some "auto_topup" ∧
    C8state.user.autoTopUpPrefs.enabled = true ∧
    (StripeRoutes.webhookPaymentFailed C8state C8intent).txs
      = [{ user := 3, type := .purchase, amount := 280,
           stripePaymentIntentId := some "pi_fail", status := .failed,
           failureReason := some "Your card was declined." }] ∧
    (StripeRoutes.webhookPaymentFailed C8state C8intent).user.autoTopUpPrefs.enabled
      = true := by
  exact ⟨by decide, by decide, by decide, by decide⟩

/-- C8 (amended): a payment-failed event delivered to the wired webhook
marks the pending ledger entry matched by the event's payment-intent ref
as failed, recording the processor's failure reason — but the account's
auto-top-up enabled flag is NOT set to false: the handler leaves the
user document untouched whatever the event's purpose.  (Only the
never-invoked stripeUtils helper `handlePaymentFailure` would disable
the flag.) -/
theorem C8_amended_webhook_marks_failed_but_keeps_topup
    (s : AccountState) (pi : PaymentIntent)
    (pre post : List CreditTransaction) (t : CreditTransaction)
    (hsplit : s.txs = pre ++ t :: post)
    (hpre : ∀ t2 ∈ pre, t2.stripePaymentIntentId ≠ some pi.id)
    (ht : t.stripePaymentIntentId = some pi.id)
    (hpend : t.status = TxStatus.pending) :
    (StripeRoutes.webhookPaymentFailed s pi).txs
      = pre ++ { t with status := .failed, failureReason := pi.failureMessage } :: post ∧
    (StripeRoutes.webhookPaymentFailed s pi).user = s.user ∧
    (StripeRoutes.webhookPaymentFailed s pi).user.autoTopUpPrefs.enabled
      = s.user.autoTopUpPrefs.enabled := by
  refine ⟨?_, rfl, rfl⟩
  show StripeUtils.failFirstMatch s.txs pi.id pi.failureMessage = _
  rw [hsplit]
  exact failFirstMatch_spec pre post t pi.id pi.failureMessage hpre ht

/-- C8 witness: the amended behaviour at the concrete pending
auto-top-up purchase pi_fail — entry marked failed with the reason, user
document (flag included) unchanged. -/
theorem C8_amended_webhook_marks_failed_but_keeps_topup_witness :
    (StripeRoutes.webhookPaymentFailed C8state C8intent).txs
      = [{ user := 3, type := .purchase, amount := 280,
           stripePaymentIntentId := some "pi_fail", status := .failed,
           failureReason := some "Your card was declined." }] ∧
    (StripeRoutes.webhookPaymentFailed C8state C8intent).user = C8state.user ∧
    (StripeRoutes.webhookPaymentFailed C8state C8intent).user.autoTopUpPrefs.enabled
      = C8state.user.autoTopUpPrefs.enabled := by
  have h := C8_amended_webhook_marks_failed_but_keeps_topup C8state C8intent
    [] [] { user := 3, type := .purchase, amount := 280,
            stripePaymentIntentId := some "pi_fail", status := .pending }
    rfl (by simp) rfl rfl
  exact ⟨h.1, h.2.1, h.2.2⟩

/-- JS truthiness of an optional string (`autoTopUp.paymentMethodId &&`):
absent and empty are falsy. -/
def jsTruthyStr : Option String → Bool
  | some s => decide (s ≠ "")
  | none => false

/-- JS `v || d` on an optional number: absent and 0 are falsy. -/
def jsOrIntDefault (v : Option Int) (d : Int) : Int :=
  match v with
  | some t => if t = 0 then d else t
  | none => d

/-- `userSchema.methods.shouldAutoTopUp` (src/unnamed/part_001:910-915):
`autoTopUp?.enabled && autoTopUp.paymentMethodId &&
credits <= (autoTopUp.threshold || 10)`. -/
def shouldAutoTopUp (u : User) : Bool :=
  u.autoTopUpPrefs.enabled && jsTruthyStr u.autoTopUpPrefs.paymentMethodId &&
    decide (u.credits ≤ jsOrIntDefault u.autoTopUpPrefs.threshold 10)

/-- The Mongo query of `userSchema.statics.findUsersNeedingAutoTopUp`
(src/unnamed/part_001:918-926): enabled, paymentMethodId `$exists`, and
`credits <= $ifNull(threshold, 10)`.  Note the query consults no
CreditTransaction: there is no pending-entry condition. -/
def needsAutoTopUpQuery (u : User) : Bool :=
  u.autoTopUpPrefs.enabled && u.autoTopUpPrefs.paymentMethodId.isSome &&
    decide (u.credits ≤ u.autoTopUpPrefs.threshold.getD 10)

/-- `User.findUsersNeedingAutoTopUp()` over the accounts table. -/
def findUsersNeedingAutoTopUp (users : List User) : List User :=
  users.filter needsAutoTopUpQuery

/-- The credits of each package in `PACKAGE_PRICING`
(src/middleware/uploadmiddleware.js:237-259). -/
def PACKAGE_PRICING_credits : String → Option Int
  | "starter" => some 280
  | "professional" => some 560
  | "business" => some 1120
  | _ => none

/-- One off-session charge attempt issued to the payment processor
(`stripe.paymentIntents.create` with `confirm: true`). -/
structure ChargeAttempt where
  userId : Nat
  credits : Int
deriving Repr, DecidableEq

/-- `processAutoTopUp(userId)` (src/middleware/uploadmiddleware.js:417-492):
re-check `shouldAutoTopUp`, look the package up, then create-and-confirm
a payment intent — that is the charge attempt; `intentStatus` is the
processor's synchronous answer.  Only on an immediate `succeeded` does
`user.addCredits` run; on any other status the user is unchanged.  No
pending ledger entry is written before or during the attempt, and none
is consulted. -/
def processAutoTopUp (intentStatus : String) (u : User) : User × List ChargeAttempt :=
  if !(shouldAutoTopUp u) then (u, [])
  else
    match PACKAGE_PRICING_credits (u.autoTopUpPrefs.packageType.getD "") with
    | none => (u, [])
    | some credits =>
      let attempt : ChargeAttempt := { userId := u.id, credits := credits }
      if intentStatus = "succeeded" then
        ({ u with
            credits := u.credits + credits,
            stats := { u.stats with
              totalCreditsPurchased := u.stats.totalCreditsPurchased + credits } },
         [attempt])
      else (u, [attempt])

/-- `checkAndProcessAutoTopUps()` (src/middleware/uploadmiddleware.js:497-527):
`findUsersNeedingAutoTopUp`, then `Promise.allSettled` over
`processAutoTopUp` for each candidate independently.  Selection and
processing read only the user documents; the ledger `txs` is passed to
show that the sweep never looks at it. -/
def runAutoTopUpSweep (users : List User) (txs : List CreditTransaction)
    (intentStatus : String) : List User × List ChargeAttempt :=
  let _ := txs
  let results := users.map (fun u =>
    if needsAutoTopUpQuery u then processAutoTopUp intentStatus u else (u, []))
  (results.map Prod.fst, (results.map Prod.snd).flatten)

/-- The eligible account of the sweep scenario: balance 8, threshold 10,
enabled, payment method on file, starter package. -/
def C9user : User :=
  { id := 1, credits := 8,
    autoTopUpPrefs := { enabled := true, paymentMethodId := some "pm_1",
                        threshold := some 10, packageType := some "starter" } }

/-- A pending auto-top-up ledger entry for that account (ref pi_first,
not yet resolved). -/
def C9pendingTx : CreditTransaction :=
  { user := 1, type := .purchase, amount := 280,
    stripePaymentIntentId := some "pi_first", purpose := some "auto_topup",
    status := .pending }

/-- C9 counterexample: even though a pending auto-top-up ledger entry is
outstanding for account 1, the sweep initiates a charge attempt for it —
and a second sweep run before the first attempt resolves (processor
answer still "processing") initiates a second attempt.  The claim that
the sweep never charges an account with a pending entry outstanding, and
that the second sweep generates no attempt, is false: the sweep never
consults the ledger. -/
theorem C9_counterexample_second_sweep_retriggers :
    C9pendingTx.status = TxStatus.pending ∧
    C9pendingTx.purpose = some "auto_topup" ∧
    (runAutoTopUpSweep [C9user] [C9pendingTx] "processing").2
      = [{ userId := 1, credits := 280 }] ∧
    (runAutoTopUpSweep (runAutoTopUpSweep [C9user] [C9pendingTx] "processing").1
        [C9pendingTx] "processing").2
      = [{ userId := 1, credits := 280 }] := by
  exact ⟨by decide, by decide, by decide, by decide⟩

/-- C9 (amended): the sweep selects accounts purely by the enabled flag,
a stored payment method and balance ≤ threshold — its result is
independent of the ledger, so pending entries are never consulted.  Per
sweep an eligible account receives exactly one charge attempt, but when
the attempt does not synchronously succeed the account is unchanged and
the next sweep issues another attempt for it. -/
theorem C9_amended_sweep_ignores_ledger_and_retriggers :
    (∀ (users : List User) (txs txs2 : List CreditTransaction) (st : String),
      runAutoTopUpSweep users txs st = runAutoTopUpSweep users txs2 st) ∧
    (∀ (u : User) (txs : List CreditTransaction) (st : String) (c : Int),
      needsAutoTopUpQuery u = true →
      shouldAutoTopUp u = true →
      PACKAGE_PRICING_credits (u.autoTopUpPrefs.packageType.getD "") = some c →
      st ≠ "succeeded" →
      runAutoTopUpSweep [u] txs st = ([u], [{ userId := u.id, credits := c }]) ∧
      (runAutoTopUpSweep (runAutoTopUpSweep [u] txs st).1 txs st).2
        = [{ userId := u.id, credits := c }]) := by
  constructor
  · intro users txs txs2 st
    rfl
  · intro u txs st c hq hs hpkg hst
    have hstep : runAutoTopUpSweep [u] txs st = ([u], [{ userId := u.id, credits := c }]) := by
      unfold runAutoTopUpSweep processAutoTopUp
      rw [List.map_singleton, if_pos hq, if_neg (by simp [hs]), hpkg]
      simp [hst]
    exact ⟨hstep, by rw [hstep, hstep]⟩

/-- C9 witness: the amended behaviour at the concrete eligible account
(balance 8, threshold 10) with the processor answering "processing". -/
theorem C9_amended_sweep_ignores_ledger_and_retriggers_witness :
    runAutoTopUpSweep [C9user] [C9pendingTx] "processing"
      = ([C9user], [{ userId := C9user.id, credits := 280 }]) ∧
    (runAutoTopUpSweep (runAutoTopUpSweep [C9user] [C9pendingTx] "processing").1
        [C9pendingTx] "processing").2
      = [{ userId := C9user.id, credits := 280 }] :=
  C9_amended_sweep_ignores_ledger_and_retriggers.2 C9user [C9pendingTx] "processing" 280
    (by decide) (by decide) (by decide) (by decide)
